import Mathlib

/-!
Verification development for the Nifty50 RSI trading-bot core
(`maincode.py`).  Prices and RSI values are modelled as rationals;
a missing (NaN) close is modelled as `none` in `Option ℚ`.  All
definitions are direct translations of the Python source: `calculate_rsi`,
`get_rsi_signal`, `get_overall_signal`, `safe_get_value`,
`is_market_open` and the refresh orchestrator `update_data`.
-/

set_option autoImplicit false

/-- One step of pandas `fillna(method='ffill')`: carry the last known
value forward; a leading run with no prior value stays missing. -/
def ffillAux : Option ℚ → List (Option ℚ) → List (Option ℚ)
  | _, [] => []
  | acc, x :: xs =>
    match x with
    | some v => some v :: ffillAux (some v) xs
    | none => acc :: ffillAux acc xs

/-- Source line `data = data.fillna(method='ffill')`. -/
def ffill (l : List (Option ℚ)) : List (Option ℚ) := ffillAux none l

/-- Source line `delta = data.diff()`: position 0 has no delta (NaN), and a
difference with a missing operand is missing. -/
def delta_at (data : List (Option ℚ)) (i : ℕ) : Option ℚ :=
  if i = 0 then none
  else
    match (ffill data).getD i none, (ffill data).getD (i - 1) none with
    | some a, some b => some (a - b)
    | _, _ => none

/-- Source line `up_values = np.where(delta > 0, delta, 0)`: a NaN delta
compares false, so it yields 0. -/
def up_at (data : List (Option ℚ)) (i : ℕ) : ℚ :=
  match delta_at data i with
  | some d => if 0 < d then d else 0
  | none => 0

/-- Source line `down_values = np.where(delta < 0, -delta, 0)`. -/
def down_at (data : List (Option ℚ)) (i : ℕ) : ℚ :=
  match delta_at data i with
  | some d => if d < 0 then -d else 0
  | none => 0

/-- Pandas `rolling(window=window, min_periods=1).mean()` at position `i`:
the mean of the trailing `min (i+1) window` samples. -/
def roll_avg (f : ℕ → ℚ) (window i : ℕ) : ℚ :=
  let seg := ((List.range (i + 1)).drop (i + 1 - window)).map f
  seg.sum / (seg.length : ℚ)

/-- `avg_up = up.rolling(window=window, min_periods=1).mean()`. -/
def avg_up (data : List (Option ℚ)) (window i : ℕ) : ℚ :=
  roll_avg (up_at data) window i

/-- `avg_down = down.rolling(window=window, min_periods=1).mean()`
before the zero substitution. -/
def avg_down (data : List (Option ℚ)) (window i : ℕ) : ℚ :=
  roll_avg (down_at data) window i

/-- Source line `avg_down = np.where(avg_down == 0, 0.0001, avg_down)`. -/
def avg_down_adj (data : List (Option ℚ)) (window i : ℕ) : ℚ :=
  if avg_down data window i = 0 then 1 / 10000 else avg_down data window i

/-- One output position of `calculate_rsi`:
`rs = avg_up / avg_down`, `rsi = 100 - 100/(1+rs)`, then
`rsi = np.where(avg_down == 0.0001, 100, rsi)`.  The final source line
`rsi = np.where(np.isnan(rsi), 50, rsi)` is a no-op: `up` and `down` are
NaN-free by construction (`np.where` maps a NaN delta to 0), the rolling
means with `min_periods=1` over them are NaN-free, and `avg_down_adj`
is nonzero, so `rsi` is never NaN at this point. -/
def rsi_at (data : List (Option ℚ)) (window i : ℕ) : ℚ :=
  let rs := avg_up data window i / avg_down_adj data window i
  let rsi := 100 - 100 / (1 + rs)
  if avg_down_adj data window i = 1 / 10000 then 100 else rsi

/-- Source `calculate_rsi(data, window)`: one RSI value per input
position. -/
def calculate_rsi (data : List (Option ℚ)) (window : ℕ) : List ℚ :=
  (List.range data.length).map (rsi_at data window)

/-- Source `get_rsi_signal(rsi_value)`; `none` models a NaN input, which
the code maps to Neutral before any comparison. -/
def get_rsi_signal (rsi_value : Option ℚ) : String × String :=
  match rsi_value with
  | none => ("Neutral", "neutral")
  | some v =>
    if v < 30 then ("Buy", "buy")
    else if 70 < v then ("Sell", "sell")
    else ("Neutral", "neutral")

/-- Per-timeframe score from `get_overall_signal`:
`-1 if rsi > 70 else (1 if rsi < 30 else 0)`. -/
def rsi_score (r : ℚ) : ℚ :=
  if 70 < r then -1 else if r < 30 then 1 else 0

/-- The weighted sum `daily_score * 0.5 + weekly_score * 0.3 +
monthly_score * 0.2` from `get_overall_signal` (a NaN input was already
replaced by 50). -/
def total_score (d w m : ℚ) : ℚ :=
  rsi_score d * (1 / 2) + rsi_score w * (3 / 10) + rsi_score m * (1 / 5)

/-- Source `get_overall_signal(daily_rsi, weekly_rsi, monthly_rsi)`,
returning `(signal, signal_class, reason)`; a `none` input models NaN,
replaced by 50 first. -/
def get_overall_signal (daily_rsi weekly_rsi monthly_rsi : Option ℚ) :
    String × String × String :=
  let dr := daily_rsi.getD 50
  let wr := weekly_rsi.getD 50
  let mr := monthly_rsi.getD 50
  let daily_score := rsi_score dr
  let weekly_score := rsi_score wr
  let monthly_score := rsi_score mr
  let total := daily_score * (1 / 2) + weekly_score * (3 / 10) + monthly_score * (1 / 5)
  let base : String × String × String :=
    if 3 / 10 < total then
      ("Strong Buy", "buy", "Most timeframes show oversold conditions.")
    else if 0 < total then
      ("Buy", "buy", "RSI suggests bullish momentum building.")
    else if total < -(3 / 10) then
      ("Strong Sell", "sell", "Most timeframes show overbought conditions.")
    else if total < 0 then
      ("Sell", "sell", "RSI suggests bearish momentum building.")
    else
      ("Neutral", "neutral", "Conflicting signals across timeframes. Consider waiting.")
  let timeframe_details : List String :=
    (if daily_score = 1 then ["Daily RSI indicates oversold conditions"]
     else if daily_score = -1 then ["Daily RSI indicates overbought conditions"]
     else []) ++
    (if weekly_score = 1 then ["Weekly RSI indicates oversold conditions"]
     else if weekly_score = -1 then ["Weekly RSI indicates overbought conditions"]
     else []) ++
    (if monthly_score = 1 then ["Monthly RSI indicates oversold conditions"]
     else if monthly_score = -1 then ["Monthly RSI indicates overbought conditions"]
     else [])
  let reason :=
    if timeframe_details.isEmpty then base.2.2
    else base.2.2 ++ " " ++ String.intercalate ", " timeframe_details ++ "."
  (base.1, base.2.1, reason)

/-- Modelled from the spec, for comparison with the source rationale:
base sentence keyed to the label, then one clause per timeframe with a
non-zero score, oversold for +1 and overbought for -1 (sentence texts are
those of the source, which the spec does not fix). -/
def base_sentence (label : String) : String :=
  if label = "Strong Buy" then "Most timeframes show oversold conditions."
  else if label = "Buy" then "RSI suggests bullish momentum building."
  else if label = "Strong Sell" then "Most timeframes show overbought conditions."
  else if label = "Sell" then "RSI suggests bearish momentum building."
  else "Conflicting signals across timeframes. Consider waiting."

/-- Modelled from the spec: the clause contributed by one timeframe,
empty when its score is zero. -/
def clause_for (tf : String) (score : ℚ) : List String :=
  if score = 1 then [tf ++ " RSI indicates oversold conditions"]
  else if score = -1 then [tf ++ " RSI indicates overbought conditions"]
  else []

/-- Modelled from the spec: the full rationale text, base sentence plus
the non-zero clauses in the fixed order daily, weekly, monthly; exactly
the base sentence when no timeframe contributes. -/
def rationaleSpec (d w m : ℚ) : String :=
  let label := (get_overall_signal (some d) (some w) (some m)).1
  let clauses :=
    clause_for "Daily" (rsi_score d) ++ clause_for "Weekly" (rsi_score w) ++
      clause_for "Monthly" (rsi_score m)
  if clauses.isEmpty then base_sentence label
  else base_sentence label ++ " " ++ String.intercalate ", " clauses ++ "."

/-- Source `safe_get_value(series, index=-1, default=50.0)`: Python
`iloc` with a possibly negative index; an out-of-range index raises and
yields the default, a NaN entry yields the default. -/
def safe_get_value (s : List (Option ℚ)) (index : ℤ) (default : ℚ) : ℚ :=
  let n : ℤ := (s.length : ℤ)
  let idx : ℤ := if index < 0 then n + index else index
  if 0 ≤ idx ∧ idx < n then
    match s.getD idx.toNat none with
    | some v => v
    | none => default
  else default

/-- The mutable global `latest_data` dict as a fixed-shape record.  The
source stores the numeric fields as strings formatted to two decimals for
display; the model keeps the numeric values themselves. -/
structure Snapshot where
  last_updated : String
  current_price : ℚ
  price_change : ℚ
  daily_rsi : ℚ
  weekly_rsi : ℚ
  monthly_rsi : ℚ
  daily_signal : String
  weekly_signal : String
  monthly_signal : String
  daily_signal_class : String
  weekly_signal_class : String
  monthly_signal_class : String
  overall_signal : String
  overall_signal_class : String
  recommendation_reason : String
deriving DecidableEq, Repr

/-- The initial value of `latest_data` at process start. -/
def latest_data : Snapshot :=
  { last_updated := "Not updated yet"
    current_price := 0
    price_change := 0
    daily_rsi := 0
    weekly_rsi := 0
    monthly_rsi := 0
    daily_signal := "Neutral"
    weekly_signal := "Neutral"
    monthly_signal := "Neutral"
    daily_signal_class := "neutral"
    weekly_signal_class := "neutral"
    monthly_signal_class := "neutral"
    overall_signal := "Neutral"
    overall_signal_class := "neutral"
    recommendation_reason := "Waiting for first analysis" }

/-- The three `yf.download` results for one invocation: `none` models a
raised exception, `some l` a returned frame with close column `l`. -/
structure Fetch where
  daily : Option (List (Option ℚ))
  weekly : Option (List (Option ℚ))
  monthly : Option (List (Option ℚ))
deriving DecidableEq

/-- The download-and-validate block of `update_data`: each series is
checked for emptiness in turn and any exception or empty frame sends the
whole block to the `except` handler (`none`). -/
def fetchSeries (f : Fetch) :
    Option (List (Option ℚ) × List (Option ℚ) × List (Option ℚ)) :=
  match f.daily with
  | none => none
  | some d =>
    if d.isEmpty then none
    else
      match f.weekly with
      | none => none
      | some w =>
        if w.isEmpty then none
        else
          match f.monthly with
          | none => none
          | some m => if m.isEmpty then none else some (d, w, m)

/-- The failure condition of the download block: some download raised or
returned an empty series. -/
def fetchFailed (f : Fetch) : Prop :=
  f.daily = none ∨ f.daily = some [] ∨ f.weekly = none ∨ f.weekly = some [] ∨
    f.monthly = none ∨ f.monthly = some []

/-- The wall-clock inputs of one `update_data` invocation:
`datetime.now(ist)` decomposed into the fields the code inspects, plus
the formatted timestamp string used for `last_updated`. -/
structure Clock where
  weekday : ℕ
  hour : ℕ
  minute : ℕ
  second : ℕ
  microsecond : ℕ
  timestampStr : String
deriving DecidableEq

/-- Lexicographic comparison of two same-day datetimes given as
(hour, minute, second, microsecond). -/
def timeLe : ℕ × ℕ × ℕ × ℕ → ℕ × ℕ × ℕ × ℕ → Bool
  | (h1, m1, s1, u1), (h2, m2, s2, u2) =>
    if h1 = h2 then
      if m1 = m2 then
        if s1 = s2 then decide (u1 ≤ u2)
        else decide (s1 < s2)
      else decide (m1 < m2)
    else decide (h1 < h2)

/-- Source `is_market_open()`: weekday < 5 and
`now.replace(hour=9, minute=15, second=0) <= now <=
now.replace(hour=15, minute=30, second=0)`.  Python `replace` keeps the
microsecond field, which both bounds therefore share with `now`. -/
def is_market_open (c : Clock) : Bool :=
  if 5 ≤ c.weekday then false
  else
    timeLe (9, 15, 0, c.microsecond) (c.hour, c.minute, c.second, c.microsecond) &&
      timeLe (c.hour, c.minute, c.second, c.microsecond) (15, 30, 0, c.microsecond)

/-- Outcome of one `update_data` invocation: the value of `latest_data`
afterwards, the returned status, and which of the two Telegram
notifications were emitted. -/
structure RefreshResult where
  state : Snapshot
  ok : Bool
  sentLive : Bool
  sentSummary : Bool
deriving DecidableEq

/-- Source `update_data()`.  On a download failure it returns False while
`latest_data` is the startup sentinel and True (keeping the cached
snapshot) otherwise; on success it recomputes the three RSI series,
signals, overall recommendation and price change, replaces `latest_data`
wholesale, sends the live Telegram update when the market is open, and
sends the end-of-day summary when the clock reads 15:30-15:44.
Chart generation and Telegram send failures are swallowed by the source
and do not affect this result. -/
def update_data (st : Snapshot) (f : Fetch) (c : Clock) : RefreshResult :=
  match fetchSeries f with
  | none =>
    if st.last_updated = "Not updated yet" then ⟨st, false, false, false⟩
    else ⟨st, true, false, false⟩
  | some (daily, weekly, monthly) =>
    let daily_rsi_value := safe_get_value ((calculate_rsi daily 14).map some) (-1) 50
    let weekly_rsi_value := safe_get_value ((calculate_rsi weekly 14).map some) (-1) 50
    let monthly_rsi_value := safe_get_value ((calculate_rsi monthly 14).map some) (-1) 50
    let dsig := get_rsi_signal (some daily_rsi_value)
    let wsig := get_rsi_signal (some weekly_rsi_value)
    let msig := get_rsi_signal (some monthly_rsi_value)
    let osig := get_overall_signal (some daily_rsi_value) (some weekly_rsi_value)
      (some monthly_rsi_value)
    let current_price := safe_get_value daily (-1) 50
    let prev_close := safe_get_value daily (-2) 50
    let price_change_pct :=
      if prev_close ≠ 0 then (current_price - prev_close) / prev_close * 100 else 0
    let st' : Snapshot :=
      { last_updated := c.timestampStr
        current_price := current_price
        price_change := price_change_pct
        daily_rsi := daily_rsi_value
        weekly_rsi := weekly_rsi_value
        monthly_rsi := monthly_rsi_value
        daily_signal := dsig.1
        weekly_signal := wsig.1
        monthly_signal := msig.1
        daily_signal_class := dsig.2
        weekly_signal_class := wsig.2
        monthly_signal_class := msig.2
        overall_signal := osig.1
        overall_signal_class := osig.2.1
        recommendation_reason := osig.2.2 }
    let live := is_market_open c
    let summary := decide (c.hour = 15 ∧ 30 ≤ c.minute ∧ c.minute < 45)
    ⟨st', true, live, summary⟩

/-- A concrete ready snapshot: `latest_data` after some earlier refresh. -/
def stReady : Snapshot :=
  { latest_data with last_updated := "2025-06-02 10:00:00" }

/-- A fetch in which every download raises. -/
def fetchBad : Fetch := ⟨none, none, none⟩

/-- A fetch in which the weekly download returns an empty frame. -/
def fetchBadWeekly : Fetch := ⟨some [some 1, some 2], some [], some [some 1]⟩

/-- A successful fetch with small concrete series. -/
def fetchGood : Fetch :=
  ⟨some [some 4, some 5], some [some 1], some [some 1]⟩

/-- A Monday-morning clock, outside both notification windows. -/
def clockMorning : Clock := ⟨0, 10, 0, 0, 0, "2025-06-02 10:00:00"⟩

/-- A Monday clock at exactly 15:30:00 (second 0): the market-open test
and the end-of-day window both accept this instant. -/
def clockClose : Clock := ⟨0, 15, 30, 0, 123, "2025-06-02 15:30:00"⟩

/-- A strictly increasing 14-element price series. -/
def closesRising : List ℚ :=
  [1, 2, 3, 4, 5, 6, 7, 8, 9, 10, 11, 12, 13, 14]

/-- A three-element price series with one gain and one loss whose natural
trailing average loss at the last position is exactly 1/10000. -/
def closesCollide : List (Option ℚ) :=
  [some 1, some (1001 / 1000), some (10007 / 10000)]

theorem get?_replicate {α : Type} (a : α) (n j : ℕ) :
    (List.replicate n a).get? j = if j < n then some a else none := by
  rw [List.get?_eq_getElem?]
  simp [List.getElem?_replicate]

theorem ffillAux_map_some (acc : Option ℚ) (l : List ℚ) :
    ffillAux acc (l.map some) = l.map some := by
  induction l generalizing acc with
  | nil => rfl
  | cons x xs ih => simp [ffillAux, ih]

theorem ffill_map_some (l : List ℚ) : ffill (l.map some) = l.map some :=
  ffillAux_map_some none l

theorem ffill_getD_map_some (l : List ℚ) (i : ℕ) :
    (ffill (l.map some)).getD i none = l.get? i := by
  rw [ffill_map_some, List.getD_eq_getD_get?, List.get?_map]
  cases l.get? i <;> rfl

theorem rsi_at_of_downs_zero (data : List (Option ℚ)) (window i : ℕ)
    (h : ∀ j, j ≤ i → down_at data j = 0) : rsi_at data window i = 100 := by
  have havg : avg_down data window i = 0 := by
    have hsum :
        (((List.range (i + 1)).drop (i + 1 - window)).map (down_at data)).sum = 0 := by
      apply List.sum_eq_zero
      intro x hx
      obtain ⟨j, hj, rfl⟩ := List.mem_map.mp hx
      exact h j (by
        have hj2 := List.mem_range.mp (List.mem_of_mem_drop hj)
        omega)
    simp only [avg_down, roll_avg]
    rw [hsum, zero_div]
  have hadj : avg_down_adj data window i = 1 / 10000 := by
    unfold avg_down_adj
    rw [havg]
    norm_num
  simp only [rsi_at]
  rw [if_pos hadj]

theorem calculate_rsi_all_hundred (data : List (Option ℚ)) (window : ℕ)
    (h : ∀ j, down_at data j = 0) :
    calculate_rsi data window = List.replicate data.length 100 := by
  rw [List.eq_replicate]
  constructor
  · simp [calculate_rsi]
  · intro b hb
    obtain ⟨i, _, rfl⟩ := List.mem_map.mp hb
    exact rsi_at_of_downs_zero data window i (fun j _ => h j)

theorem down_at_replicate (q : ℚ) (n j : ℕ) :
    down_at (List.replicate n (some q)) j = 0 := by
  have hrep : (List.replicate n (some q) : List (Option ℚ)) = (List.replicate n q).map some :=
    (List.map_replicate).symm
  unfold down_at delta_at
  rcases Nat.eq_zero_or_pos j with hj | hj
  · simp [hj]
  · rw [if_neg (by omega), hrep, ffill_getD_map_some, ffill_getD_map_some,
      get?_replicate, get?_replicate]
    split_ifs <;> simp

theorem down_at_of_chain_lt (closes : List ℚ)
    (hmono : List.Chain' (fun a b => a < b) closes) (j : ℕ) :
    down_at (closes.map some) j = 0 := by
  unfold down_at delta_at
  rcases Nat.eq_zero_or_pos j with hj | hj
  · simp [hj]
  · rw [if_neg (by omega), ffill_getD_map_some, ffill_getD_map_some]
    rcases lt_or_ge j closes.length with h1 | h1
    · have h2 : j - 1 < closes.length := by omega
      rw [List.get?_eq_getElem?, List.get?_eq_getElem?,
        List.getElem?_eq_getElem h1, List.getElem?_eq_getElem h2]
      have h3 : closes[j - 1] < closes[j] := by
        have h4 := List.chain'_iff_get.mp hmono (j - 1) (by omega)
        simpa [show j - 1 + 1 = j from by omega] using h4
      have hd : ¬ (closes[j] - closes[j - 1] < 0) := by
        simp only [not_lt, sub_nonneg]
        exact le_of_lt h3
      simp [hd]
    · rw [List.get?_eq_none.mpr h1]

/-- Claim C3 counterexample: on the single-element series `[5]` the code
returns RSI 100 at the sole position, not the neutral 50 claimed: the
zero average loss triggers the epsilon substitution and the all-gains
rule, and the NaN-to-50 fallback never fires. -/
theorem calculate_rsi_single_element_ne_fifty :
    calculate_rsi [some 5] 14 = [100] ∧ calculate_rsi [some 5] 14 ≠ [50] := by
  have h : calculate_rsi [some 5] 14 = [100] := by
    norm_num [calculate_rsi, rsi_at, avg_up, avg_down, avg_down_adj, roll_avg, up_at,
      down_at, delta_at, ffill, ffillAux, List.range_succ]
  refine ⟨h, ?_⟩
  rw [h]
  norm_num

/-- Claim C3 (amended): for a single-element price series `calculate_rsi`
returns 100 at the sole position (the zero average loss triggers the
all-gains rule, not the neutral 50), and for a constant non-empty price
series it returns 100 at every position. -/
theorem calculate_rsi_single_and_constant_hundred :
    (∀ q : ℚ, calculate_rsi [some q] 14 = [100]) ∧
      ∀ (q : ℚ) (n : ℕ), 0 < n →
        calculate_rsi (List.replicate n (some q)) 14 = List.replicate n 100 := by
  have hconst : ∀ (q : ℚ) (n : ℕ),
      calculate_rsi (List.replicate n (some q)) 14 = List.replicate n 100 := by
    intro q n
    have h := calculate_rsi_all_hundred (List.replicate n (some q)) 14
      (fun j => down_at_replicate q n j)
    simpa using h
  exact ⟨fun q => by simpa using hconst q 1, fun q n _ => hconst q n⟩

/-- Witness for the amended claim C3 at the constant series of three 7s. -/
theorem calculate_rsi_single_and_constant_hundred_witness :
    calculate_rsi (List.replicate 3 (some 7)) 14 = List.replicate 3 100 :=
  calculate_rsi_single_and_constant_hundred.2 7 3 (by norm_num)

/-- Claim C6: for a strictly increasing, all-positive price series of
length at least 14, `calculate_rsi` preserves the length, every output
value lies in `[0, 100]`, and every position from index 13 on (window
full) carries RSI exactly 100. -/
theorem calculate_rsi_rising (closes : List ℚ)
    (hmono : List.Chain' (fun a b => a < b) closes)
    (hpos : ∀ x ∈ closes, 0 < x) (hlen : 14 ≤ closes.length) :
    (calculate_rsi (closes.map some) 14).length = closes.length ∧
      (∀ r ∈ calculate_rsi (closes.map some) 14, 0 ≤ r ∧ r ≤ 100) ∧
      ∀ i, 13 ≤ i → i < closes.length →
        (calculate_rsi (closes.map some) 14).getD i 0 = 100 := by
  have hall : calculate_rsi (closes.map some) 14 = List.replicate closes.length 100 := by
    have h := calculate_rsi_all_hundred (closes.map some) 14 (down_at_of_chain_lt closes hmono)
    simpa using h
  refine ⟨by simp [hall], ?_, ?_⟩
  · intro r hr
    rw [hall] at hr
    have hr100 := List.eq_of_mem_replicate hr
    subst hr100
    norm_num
  · intro i _ hi
    rw [hall, List.getD_eq_getD_get?, get?_replicate]
    simp [hi]

/-- Witness for claim C6 at the strictly increasing series 1..14. -/
theorem calculate_rsi_rising_witness :
    (calculate_rsi (closesRising.map some) 14).length = closesRising.length ∧
      (∀ r ∈ calculate_rsi (closesRising.map some) 14, 0 ≤ r ∧ r ≤ 100) ∧
      ∀ i, 13 ≤ i → i < closesRising.length →
        (calculate_rsi (closesRising.map some) 14).getD i 0 = 100 :=
  calculate_rsi_rising closesRising
    (by norm_num [closesRising, List.chain'_cons])
    (by norm_num [closesRising])
    (by norm_num [closesRising])

theorem calc_rsi_getD (data : List (Option ℚ)) (window i : ℕ) (h : i < data.length) :
    (calculate_rsi data window).getD i 0 = rsi_at data window i := by
  unfold calculate_rsi
  rw [List.getD_eq_getD_get?, List.get?_map, List.get?_range h]
  rfl

/-- Claim C10: every position whose trailing average loss is exactly
1/10000 (the epsilon the code substitutes for a zero average loss) is
reported as RSI 100, and a concrete input with both a gain and a loss
inside the window indeed gets RSI 100 at its last position. -/
theorem rsi_epsilon_collision :
    (∀ (data : List (Option ℚ)) (window i : ℕ), i < data.length →
        avg_down data window i = 1 / 10000 →
        (calculate_rsi data window).getD i 0 = 100) ∧
      ∃ (data : List (Option ℚ)) (i : ℕ), i < data.length ∧
        (∃ j, j ≤ i ∧ 0 < up_at data j) ∧ (∃ j, j ≤ i ∧ 0 < down_at data j) ∧
        (calculate_rsi data 14).getD i 0 = 100 := by
  constructor
  · intro data window i hi havg
    rw [calc_rsi_getD data window i hi]
    have hadj : avg_down_adj data window i = 1 / 10000 := by
      unfold avg_down_adj
      rw [havg]
      norm_num
    simp only [rsi_at]
    rw [if_pos hadj]
  · refine ⟨closesCollide, 2, by norm_num [closesCollide], ⟨1, by norm_num, ?_⟩,
      ⟨2, le_refl 2, ?_⟩, ?_⟩
    · norm_num [up_at, delta_at, ffill, ffillAux, closesCollide]
    · norm_num [down_at, delta_at, ffill, ffillAux, closesCollide]
    · norm_num [calculate_rsi, rsi_at, avg_up, avg_down, avg_down_adj, roll_avg, up_at,
        down_at, delta_at, ffill, ffillAux, closesCollide, List.range_succ]

/-- Witness for claim C10 at the gain-and-loss series whose trailing
average loss is exactly 1/10000. -/
theorem rsi_epsilon_collision_witness :
    (calculate_rsi closesCollide 14).getD 2 0 = 100 :=
  rsi_epsilon_collision.1 closesCollide 14 2 (by norm_num [closesCollide])
    (by norm_num [avg_down, roll_avg, down_at, delta_at, ffill, ffillAux, closesCollide,
      List.range_succ])

/-- Claim C4: `get_rsi_signal` returns Buy exactly below 30, Sell exactly
above 70, Neutral at both boundaries and on a NaN input. -/
theorem get_rsi_signal_thresholds (v : ℚ) :
    ((get_rsi_signal (some v)).1 = "Buy" ↔ v < 30) ∧
      ((get_rsi_signal (some v)).1 = "Sell" ↔ 70 < v) ∧
      (get_rsi_signal (some 30)).1 = "Neutral" ∧
      (get_rsi_signal (some 70)).1 = "Neutral" ∧
      (get_rsi_signal none).1 = "Neutral" := by
  refine ⟨?_, ?_, by norm_num [get_rsi_signal], by norm_num [get_rsi_signal], rfl⟩
  · simp only [get_rsi_signal]
    split_ifs with h1 h2
    · exact iff_of_true rfl h1
    · exact iff_of_false (by decide) h1
    · exact iff_of_false (by decide) h1
  · simp only [get_rsi_signal]
    split_ifs with h1 h2
    · exact iff_of_false (by decide) (by linarith)
    · exact iff_of_true rfl h2
    · exact iff_of_false (by decide) h2

theorem fetchSeries_eq_none (f : Fetch) (h : fetchFailed f) : fetchSeries f = none := by
  rcases f with ⟨fd, fw, fm⟩
  unfold fetchFailed at h
  dsimp only at h
  cases fd <;> cases fw <;> cases fm <;> simp_all [fetchSeries] <;>
    rcases h with rfl | rfl | rfl <;> simp

/-- Claim C1: a refresh invoked in the Ready state (a prior snapshot
exists) whose fetch fails or returns an empty series leaves the stored
snapshot unchanged, returns the soft-success status True, and emits no
notification. -/
theorem update_data_ready_keeps_snapshot (st : Snapshot) (f : Fetch) (c : Clock)
    (hready : st.last_updated ≠ "Not updated yet") (h : fetchFailed f) :
    update_data st f c = ⟨st, true, false, false⟩ := by
  unfold update_data
  rw [fetchSeries_eq_none f h]
  simp [hready]

/-- Witness for claim C1: a failed fetch over a ready snapshot. -/
theorem update_data_ready_keeps_snapshot_witness :
    update_data stReady fetchBad clockMorning = ⟨stReady, true, false, false⟩ :=
  update_data_ready_keeps_snapshot stReady fetchBad clockMorning (by decide) (Or.inl rfl)

/-- Claim C2: a refresh invoked while no snapshot was ever produced
(`last_updated` still the sentinel) whose fetch fails leaves the stored
data at the original sentinel values and reports failure (False). -/
theorem update_data_coldstart_failure (f : Fetch) (c : Clock) (h : fetchFailed f) :
    update_data latest_data f c = ⟨latest_data, false, false, false⟩ := by
  unfold update_data
  rw [fetchSeries_eq_none f h]
  simp [latest_data]

/-- Witness for claim C2: an empty weekly series on cold start. -/
theorem update_data_coldstart_failure_witness :
    update_data latest_data fetchBadWeekly clockMorning =
      ⟨latest_data, false, false, false⟩ :=
  update_data_coldstart_failure fetchBadWeekly clockMorning
    (Or.inr (Or.inr (Or.inr (Or.inl rfl))))

theorem safe_get_value_last (xs : List (Option ℚ)) (a b : ℚ) :
    safe_get_value (xs ++ [some a, some b]) (-1) 50 = b := by
  simp only [safe_get_value]
  rw [if_pos (show (-1 : ℤ) < 0 by norm_num)]
  rw [if_pos (show (0 : ℤ) ≤ ((xs ++ [some a, some b]).length : ℤ) + -1 ∧
      ((xs ++ [some a, some b]).length : ℤ) + -1 < ((xs ++ [some a, some b]).length : ℤ) by
    constructor <;> (simp only [List.length_append, List.length_cons, List.length_nil]; omega))]
  have hidx : ((((xs ++ [some a, some b]).length : ℤ)) + -1).toNat = xs.length + 1 := by
    simp only [List.length_append, List.length_cons, List.length_nil]
    omega
  rw [hidx]
  have hget : (xs ++ [some a, some b]).getD (xs.length + 1) none = some b := by
    rw [List.getD_eq_getD_get?, List.get?_append_right (by omega)]
    simp
  rw [hget]

theorem safe_get_value_prev (xs : List (Option ℚ)) (a b : ℚ) :
    safe_get_value (xs ++ [some a, some b]) (-2) 50 = a := by
  simp only [safe_get_value]
  rw [if_pos (show (-2 : ℤ) < 0 by norm_num)]
  rw [if_pos (show (0 : ℤ) ≤ ((xs ++ [some a, some b]).length : ℤ) + -2 ∧
      ((xs ++ [some a, some b]).length : ℤ) + -2 < ((xs ++ [some a, some b]).length : ℤ) by
    constructor <;> (simp only [List.length_append, List.length_cons, List.length_nil]; omega))]
  have hidx : ((((xs ++ [some a, some b]).length : ℤ)) + -2).toNat = xs.length := by
    simp only [List.length_append, List.length_cons, List.length_nil]
    omega
  rw [hidx]
  have hget : (xs ++ [some a, some b]).getD xs.length none = some a := by
    rw [List.getD_eq_getD_get?, List.get?_append_right (by omega)]
    simp
  rw [hget]

/-- Claim C7: on a successful refresh the stored price change percentage
is `(latestClose - previousClose) / previousClose * 100` computed from
the last two daily closes, and 0 when the previous close is zero. -/
theorem update_data_price_change (st : Snapshot) (f : Fetch) (c : Clock)
    (xs weekly monthly : List (Option ℚ)) (a b : ℚ)
    (hf : fetchSeries f = some (xs ++ [some a, some b], weekly, monthly)) :
    (update_data st f c).ok = true ∧
      (update_data st f c).state.price_change =
        if a = 0 then 0 else (b - a) / a * 100 := by
  unfold update_data
  rw [hf]
  refine ⟨rfl, ?_⟩
  dsimp only
  rw [safe_get_value_last, safe_get_value_prev]
  by_cases ha : a = 0
  · simp [ha]
  · simp [ha]

/-- Witness for claim C7: last two closes 4 and 5 give a 25 percent
change. -/
theorem update_data_price_change_witness :
    (update_data latest_data fetchGood clockMorning).ok = true ∧
      (update_data latest_data fetchGood clockMorning).state.price_change =
        if (4 : ℚ) = 0 then 0 else ((5 : ℚ) - 4) / 4 * 100 :=
  update_data_price_change latest_data fetchGood clockMorning [] [some 1] [some 1] 4 5 rfl

/-- Claim C8 counterexample: the refresh invoked at Monday 15:30:00 with
a successful fetch emits both the live market-hours update and the
end-of-day summary in the same invocation, because the market-open test
is inclusive up to 15:30:00 while the summary window opens at 15:30. -/
theorem update_data_both_notifications_at_close :
    (update_data latest_data fetchGood clockClose).sentLive = true ∧
      (update_data latest_data fetchGood clockClose).sentSummary = true := by
  constructor <;> rfl

theorem market_open_summary_overlap (c : Clock) :
    (is_market_open c = true ∧
        decide (c.hour = 15 ∧ 30 ≤ c.minute ∧ c.minute < 45) = true) ↔
      (c.weekday < 5 ∧ c.hour = 15 ∧ c.minute = 30 ∧ c.second = 0) := by
  rcases c with ⟨wd, h, m, s, u, ts⟩
  simp only [is_market_open, timeLe]
  dsimp only
  split_ifs <;> simp_all

/-- Claim C8 (amended): both notification kinds are emitted in one
invocation exactly when the refresh succeeded and the invocation ran on
a weekday at 15:30 with seconds exactly 0; at all other instants at most
one kind is emitted. -/
theorem update_data_both_notifications_iff (st : Snapshot) (f : Fetch) (c : Clock) :
    ((update_data st f c).sentLive = true ∧ (update_data st f c).sentSummary = true) ↔
      ((fetchSeries f).isSome = true ∧
        c.weekday < 5 ∧ c.hour = 15 ∧ c.minute = 30 ∧ c.second = 0) := by
  unfold update_data
  cases hf : fetchSeries f with
  | none => split_ifs <;> simp
  | some t =>
    obtain ⟨dl, wl, ml⟩ := t
    dsimp only
    simp only [Option.isSome_some, true_and]
    exact market_open_summary_overlap c

theorem score_mem (r : ℚ) : rsi_score r = -1 ∨ rsi_score r = 0 ∨ rsi_score r = 1 := by
  unfold rsi_score
  split_ifs <;> norm_num

/-- Claim C5: each timeframe is scored -1 above 70, +1 below 30 and 0
otherwise; the total is the 0.5/0.3/0.2 weighted sum; the label is
Strong Buy above 0.3, Buy on (0, 0.3], Strong Sell below -0.3, Sell on
[-0.3, 0) and Neutral at 0; and the two spec examples evaluate as
claimed. -/
theorem get_overall_signal_weighted (d w m : ℚ) :
    rsi_score d = (if 70 < d then -1 else if d < 30 then 1 else 0) ∧
      ((get_overall_signal (some d) (some w) (some m)).1 = "Strong Buy" ↔
        3 / 10 < total_score d w m) ∧
      ((get_overall_signal (some d) (some w) (some m)).1 = "Buy" ↔
        0 < total_score d w m ∧ total_score d w m ≤ 3 / 10) ∧
      ((get_overall_signal (some d) (some w) (some m)).1 = "Strong Sell" ↔
        total_score d w m < -(3 / 10)) ∧
      ((get_overall_signal (some d) (some w) (some m)).1 = "Sell" ↔
        -(3 / 10) ≤ total_score d w m ∧ total_score d w m < 0) ∧
      ((get_overall_signal (some d) (some w) (some m)).1 = "Neutral" ↔
        total_score d w m = 0) ∧
      total_score 25 75 50 = 1 / 5 ∧
      (get_overall_signal (some 25) (some 75) (some 50)).1 = "Buy" ∧
      total_score 20 20 20 = 1 ∧
      (get_overall_signal (some 20) (some 20) (some 20)).1 = "Strong Buy" := by
  refine ⟨rfl, ?_⟩
  have hd := score_mem d
  have hw := score_mem w
  have hm := score_mem m
  rcases hd with hd | hd | hd <;> rcases hw with hw | hw | hw <;>
    rcases hm with hm | hm | hm <;>
    simp only [get_overall_signal, total_score, Option.getD_some, hd, hw, hm] <;>
    norm_num [rsi_score] <;> decide

set_option maxRecDepth 4000 in
/-- Claim C9: the rationale returned by `get_overall_signal` is exactly
the base sentence keyed to the label followed by one clause per
timeframe with a non-zero score, in the fixed order daily, weekly,
monthly, and exactly the base sentence when every score is zero. -/
theorem get_overall_signal_rationale (d w m : ℚ) :
    (get_overall_signal (some d) (some w) (some m)).2.2 = rationaleSpec d w m := by
  have hd := score_mem d
  have hw := score_mem w
  have hm := score_mem m
  rcases hd with hd | hd | hd <;> rcases hw with hw | hw | hw <;>
    rcases hm with hm | hm | hm <;>
    simp only [get_overall_signal, rationaleSpec, clause_for, base_sentence,
      Option.getD_some, hd, hw, hm] <;>
    norm_num [String.intercalate] <;> decide
